import Mathlib

/-!
Shallow embedding of the core of the `monitor` repository (Go):
the bounded-retry executor (`internal/retry/retry.go`), the dual-backend
metric store (`internal/storage/storage.go`), and the delivery queue of the
telemetry pipeline (`internal/telemetry`).  Definitions are translated from
the Go source; oracle parameters (`Faults`) stand for the outcomes of the
external database / file-system calls, and a constant `ctxDone : Bool`
models a context that is either cancelled for the whole run or never.
-/

/-- Go `error` values as they occur in this repository.
`retriableTag` is the `*retriableError` pointer created by
`retry.RetriableError` (the only constructor of that type), `wrap` is a
generic `fmt.Errorf`-style wrapper participating in the `errors.Unwrap`
chain, `pg` is `*pgconn.PgError` with its SQLSTATE code, `sqlNoRows` is
`sql.ErrNoRows`, `ctxCanceled` is `context.Canceled`. -/
inductive GoErr
  | base (msg : String)
  | pg (code : String) (msg : String)
  | wrap (msg : String) (inner : GoErr)
  | retriableTag (inner : GoErr)
  | sqlNoRows
  | ctxCanceled
deriving DecidableEq

/-- `errors.Unwrap`: one step of the unwrap chain (nil when the error does
not wrap another). -/
def unwrapOne : GoErr → Option GoErr
  | GoErr.wrap _ e => some e
  | GoErr.retriableTag e => some e
  | _ => none

/-- Whether the unwrap chain carries the retriable tag — the property
"tagged retriable" that the spec speaks of.  This is what `retry.Do`'s
check was evidently meant to compute; what it actually computes is
`asRetriableError` below. -/
def isRetriable : GoErr → Bool
  | GoErr.retriableTag _ => true
  | GoErr.wrap _ e => isRetriable e
  | _ => false

/-- The check `retry.Do` actually performs: `var rerr retriableError;
errors.As(err, &rerr)` — the target is the VALUE type `retriableError`, so
`errors.As` walks the unwrap chain looking for an error whose concrete
type is assignable to `retriableError`.  Every tag in the chain is the
pointer `*retriableError` that `RetriableError` returns, which is not
assignable to the value type, so no node ever matches. -/
def asRetriableError : GoErr → Bool
  | GoErr.retriableTag _ => false
  | GoErr.wrap _ e => asRetriableError e
  | _ => false

/-- The value-typed `errors.As` check of `retry.Do` matches no error this
repository can construct. -/
theorem asRetriableError_false (e : GoErr) : asRetriableError e = false := by
  induction e <;> simp [asRetriableError, *]

/-- `errors.As(err, &pgErr)`: the first `*pgconn.PgError` of the unwrap
chain, as (code, message). -/
def asPgError : GoErr → Option (String × String)
  | GoErr.pg c m => some (c, m)
  | GoErr.wrap _ e => asPgError e
  | GoErr.retriableTag e => asPgError e
  | _ => none

/-- `pgerrcode.IsConnectionException`: membership in SQLSTATE class 08. -/
def isConnectionException (code : String) : Bool :=
  code = "08000" || code = "08003" || code = "08006" || code = "08001" ||
  code = "08004" || code = "08007" || code = "08P01"

/-- `(s *MemStorage).retryIfPgConnException` (and, structurally, the
telemetry `retryIfNetError`): wrap the error as retriable exactly when it
carries a Postgres connection-exception code. -/
def retryIfPgConnException (e : GoErr) : GoErr :=
  match asPgError e with
  | some (code, _) => if isConnectionException code then GoErr.retriableTag e else e
  | none => e

/-- Outcome of one `retry.Do` run: the returned error (`none` = nil), the
number of times the wrapped operation was invoked, and the backoff delays
(seconds) actually waited. -/
structure DoResult where
  err : Option GoErr
  calls : Nat
  sleeps : List Nat
deriving DecidableEq

/-- The loop body of `retry.Do` (retry.go, lines 33-64), with the state of
the side effects of the operation threaded explicitly.  The argument list
is the remaining `intervals`; `k` counts invocations performed so far and
`last` holds the error of the most recent attempt.  At the head of each
iteration a done context returns `ctx.Err()`; a successful attempt returns
nil; a failure matching the `errors.As` check sleeps the interval and
continues, any other failure is returned as is; after the last interval
the loop falls through to `errors.Unwrap(err)`.  Because the value-typed
`errors.As` check (`asRetriableError`) never matches, the sleep/continue
branch and the final unwrap are in fact dead code: every run performs
exactly one invocation. -/
def doAux {σ : Type} (cd : Bool) (f : Nat → σ → σ × Option GoErr) :
    List Nat → Nat → Option GoErr → σ → σ × DoResult
  | [], k, last, s => (s, { err := last.bind unwrapOne, calls := k, sleeps := [] })
  | interval :: rest, k, last, s =>
    if cd then (s, { err := some GoErr.ctxCanceled, calls := k, sleeps := [] }) else
    let p := f k s
    match p.2 with
    | none => (p.1, { err := none, calls := k + 1, sleeps := [] })
    | some e =>
      if asRetriableError e then
        let q := doAux cd f rest (k + 1) (some e) p.1
        (q.1, { q.2 with sleeps := interval :: q.2.sleeps })
      else (p.1, { err := some e, calls := k + 1, sleeps := [] })

/-- `retry.Do` with the operation's side effects threaded as state
(the hard-coded schedule is 1s, 3s, 5s). -/
def retryDoSt {σ : Type} (cd : Bool) (f : Nat → σ → σ × Option GoErr) (s : σ) :
    σ × DoResult :=
  doAux cd f [1, 3, 5] 0 none s

/-- `retry.Do` for an operation with no modelled state: `f n` is the error
returned by the (n+1)-th invocation (`none` = success). -/
def retryDo (cd : Bool) (f : Nat → Option GoErr) : DoResult :=
  (retryDoSt cd (fun n _ => ((), f n)) ()).2

/-- A fault oracle: the error produced by the external call underlying the
(n+1)-th attempt of one retried operation (`none` = the call succeeds). -/
def Faults : Type := Nat → Option GoErr

/-- The fault-free oracle: every external call succeeds. -/
def noFault : Faults := fun _ => none

/-- If every attempt of an operation leaves the state unchanged whenever it
fails, then a `retry.Do` run that ends in an error leaves the state at its
initial value. -/
theorem doAux_state_of_err {σ : Type} (cd : Bool) (f : Nat → σ → σ × Option GoErr)
    (hf : ∀ n s, (f n s).2 ≠ none → (f n s).1 = s) :
    ∀ (l : List Nat) (k : Nat) (last : Option GoErr) (s : σ),
      (doAux cd f l k last s).2.err ≠ none → (doAux cd f l k last s).1 = s := by
  intro l
  induction l with
  | nil => intro k last s _; simp [doAux]
  | cons interval rest ih =>
    intro k last s herr
    cases hcd : cd with
    | true => simp [doAux, hcd]
    | false =>
      subst hcd
      rcases hp : (f k s).2 with _ | e
      · exfalso
        simp [doAux, hp] at herr
      · by_cases hr : asRetriableError e = true
        · have hstep : (f k s).1 = s := hf k s (by simp [hp])
          simp only [doAux, Bool.false_eq_true, if_false, hp, hr, if_true] at herr ⊢
          rw [hstep] at herr ⊢
          exact ih (k + 1) (some e) s herr
        · simp only [Bool.not_eq_true] at hr
          simp only [doAux, Bool.false_eq_true, if_false, hp, hr] at herr ⊢
          exact hf k s (by simp [hp])

/-- C1: the claim states that an operation whose every invocation fails
retriable is invoked exactly 4 times (1 initial + 3 retries) and the
unwrapped underlying error of the last attempt is returned.  Evaluating
the embedded `retry.Do` on such an operation: `Do`'s value-typed
`errors.As` check never matches the pointer `*retriableError` that
`RetriableError` returns, so the failure is treated as non-retriable —
the operation is invoked exactly once, no backoff sleep happens, and the
error is returned still carrying the retriable tag (never unwrapped). -/
theorem C1_retry_one_attempt_eval :
    retryDo false (fun _ => some (GoErr.retriableTag (GoErr.base "connection reset"))) =
      { err := some (GoErr.retriableTag (GoErr.base "connection reset")),
        calls := 1, sleeps := [] } := by
  decide

/-- C8: an operation whose first invocation fails with an error that is not
tagged retriable is invoked exactly once; `retry.Do` returns that error
immediately, as returned by the operation (unwrapped), with no backoff
wait. -/
theorem C8_nonretriable_immediate (e : GoErr) (f : Nat → Option GoErr)
    (hr : isRetriable e = false) (hf : f 0 = some e) :
    retryDo false f = { err := some e, calls := 1, sleeps := [] } := by
  simp [retryDo, retryDoSt, doAux, hf, asRetriableError_false]

/-- Witness for C8 at a concrete non-retriable error. -/
theorem C8_nonretriable_immediate_witness :
    isRetriable (GoErr.base "syntax error") = false ∧
      retryDo false (fun _ => some (GoErr.base "syntax error")) =
        { err := some (GoErr.base "syntax error"), calls := 1, sleeps := [] } :=
  ⟨by decide,
    C8_nonretriable_immediate (GoErr.base "syntax error")
      (fun _ => some (GoErr.base "syntax error")) (by decide) rfl⟩

/-- A Go `map[string]...` (and likewise a Postgres table keyed by `name`),
modelled as an association list kept strictly sorted by key — the canonical
representative of the unordered map.  Gauge values (`float64` / `DOUBLE
PRECISION`) are modelled by an abstract numeric value type (`Int`): no
claim involves floating-point arithmetic, only storing, retrieving and
printing values. -/
def mapSet : List (String × Int) → String → Int → List (String × Int)
  | [], k, v => [(k, v)]
  | (k', v') :: rest, k, v =>
    if k < k' then (k, v) :: (k', v') :: rest
    else if k = k' then (k, v) :: rest
    else (k', v') :: mapSet rest k v

/-- Go map lookup `m[k]` (`none` = key absent). -/
def mapGet : List (String × Int) → String → Option Int
  | [], _ => none
  | (k', v') :: rest, k => if k = k' then some v' else mapGet rest k

theorem mapGet_mapSet_self (m : List (String × Int)) (k : String) (v : Int) :
    mapGet (mapSet m k v) k = some v := by
  induction m with
  | nil => simp [mapSet, mapGet]
  | cons p rest ih =>
    obtain ⟨k', v'⟩ := p
    by_cases h1 : k < k'
    · simp [mapSet, mapGet, h1]
    · by_cases h2 : k = k'
      · simp [mapSet, mapGet, h1, h2]
      · simp [mapSet, mapGet, h1, h2, ih]

/-- Two's-complement wrap-around of Go `int64` arithmetic. -/
def int64Wrap (n : Int) : Int := (n + 2 ^ 63) % 2 ^ 64 - 2 ^ 63

theorem int64Wrap_eq_of_bounds (n : Int) (h1 : -(2 ^ 63) ≤ n) (h2 : n < 2 ^ 63) :
    int64Wrap n = n := by
  have e63 : (2 : Int) ^ 63 = 9223372036854775808 := by norm_num
  have e64 : (2 : Int) ^ 64 = 18446744073709551616 := by norm_num
  unfold int64Wrap
  rw [Int.emod_eq_of_lt (by omega) (by omega)]
  omega

/-- Whether an integer fits Go `int64` (the relational backend's counter
column is `NUMERIC`; scanning it back into an `int64` fails outside this
range). -/
def inInt64 (n : Int) : Bool := decide (-(2 ^ 63) ≤ n) && decide (n < 2 ^ 63)

/-- The relational backend's side of a `MemStorage`: the two tables of the
connected database, plus the closed-flags of the connection and of the
prepared statements (the statements themselves exist whenever this backend
was constructed — `NewDBStorage` only publishes the storage after all
eight `Preparex` calls succeed).  `CREATE TABLE IF NOT EXISTS` preserves
pre-existing rows, so the tables carry whatever the database held. -/
structure DBState where
  gaugeTab : List (String × Int)
  counterTab : List (String × Int)
  dbClosed : Bool := false
  stmtSetGaugeClosed : Bool := false
  stmtAddCounterClosed : Bool := false
  stmtGetGaugeClosed : Bool := false
  stmtGetCounterClosed : Bool := false
  stmtStringGaugeClosed : Bool := false
  stmtStringCounterClosed : Bool := false
  stmtAllGaugeClosed : Bool := false
  stmtAllCounterClosed : Bool := false
deriving DecidableEq

/-- An `*os.File` handle: its current contents and whether it has been
closed. -/
structure FileState where
  contents : String
  closed : Bool
deriving DecidableEq

/-- `storage.MemStorage` (storage.go, lines 26-45): `db = none` models the
nil `*sqlx.DB` of the local backend; the mutex is not modelled (operations
are interleaved at the granularity the lock enforces). -/
structure MemStorage where
  db : Option DBState
  DataGauge : List (String × Int)
  DataCounter : List (String × Int)
  file : Option FileState
  syncMode : Bool
deriving DecidableEq

/-- `json.Marshal` of a `map[string]Gauge` / `map[string]Counter`: a JSON
object with the keys in sorted order (Go sorts map keys when marshalling);
keys of interest contain no characters needing escaping. -/
def encodeMapJson (m : List (String × Int)) : String :=
  "\x7b" ++ String.intercalate ","
    (m.map fun p => "\"" ++ p.1 ++ "\":" ++ toString p.2) ++ "\x7d"

/-- `json.Encoder.Encode(s)` on a `*MemStorage`: only the exported fields
`DataGauge` and `DataCounter` are marshalled; `Encode` appends a newline. -/
def encodeStore (s : MemStorage) : String :=
  "\x7b\"DataGauge\":" ++ encodeMapJson s.DataGauge ++
    ",\"DataCounter\":" ++ encodeMapJson s.DataCounter ++ "\x7d\n"

/-- The text Postgres produces for `SELECT json_agg(row_to_json(t)) FROM t`
on a non-empty table `t(name, value)`: a JSON array of row objects (one
`name`/`value` object per row), not an id-to-value object. -/
def jsonAggRows (tab : List (String × Int)) : String :=
  "[" ++ String.intercalate ","
    (tab.map fun p =>
      "\x7b\"name\":\"" ++ p.1 ++ "\",\"value\":" ++ toString p.2 ++ "\x7d") ++ "]"

/-- `(s *MemStorage).writeToFile` (storage.go, lines 594-617): nothing to
do without a file; otherwise `retry.Do` (with `context.Background()`, never
done) around truncate-then-encode.  Truncating a closed file fails with
`os.ErrClosed`; the closure wraps every failure as retriable, so the error
is retried to exhaustion and surfaced unwrapped.  The mutex is held for
the duration. -/
def writeToFile (s : MemStorage) : MemStorage × Option GoErr :=
  match s.file with
  | none => (s, none)
  | some _ =>
    let r := retryDoSt false
      (fun _ st =>
        match st.file with
        | some f =>
          if f.closed then
            (st, some (GoErr.retriableTag (GoErr.base "file already closed")))
          else
            ({ st with file := some { f with contents := encodeStore st } }, none)
        | none => (st, none))
      s
    (r.1, r.2.err)

/-- Closed form of `writeToFile`: an open file receives the encoded store
on the first attempt; on a closed file the single attempt (the retriable
wrapping is never detected by `retry.Do`) fails and the `os.ErrClosed`
error is returned still wrapped, with the store unchanged. -/
theorem writeToFile_eq (s : MemStorage) :
    writeToFile s =
      match s.file with
      | none => (s, none)
      | some f =>
        if f.closed then
          (s, some (GoErr.retriableTag (GoErr.base "file already closed")))
        else ({ s with file := some { f with contents := encodeStore s } }, none) := by
  rcases hfile : s.file with _ | f
  · simp [writeToFile, hfile]
  · by_cases hc : f.closed = true
    · simp [writeToFile, hfile, retryDoSt, doAux, hc, asRetriableError]
    · simp only [Bool.not_eq_true] at hc
      simp [writeToFile, hfile, retryDoSt, doAux, hc]

/-- One database call through `retry.Do`: on attempt `n` the fault oracle
either injects the driver error (state unchanged, wrapped retriable iff it
is a connection exception) or the statement executes, applying `act` to
the database. -/
def execRetry (cd : Bool) (faults : Faults) (act : DBState → DBState)
    (db : DBState) : DBState × DoResult :=
  retryDoSt cd
    (fun n st =>
      match faults n with
      | some e => (st, some (retryIfPgConnException e))
      | none => (act st, none))
    db

/-- `SetGauge` (storage.go, lines 248-268): relational path is the upsert
statement under `retry.Do`; local path writes the map under the mutex and,
in synchronous flush mode, rewrites the backing file (ignoring its error). -/
def SetGauge (cd : Bool) (faults : Faults) (s : MemStorage) (k : String)
    (v : Int) : MemStorage × Option GoErr :=
  match s.db with
  | some db =>
    let r := execRetry cd faults
      (fun st => { st with gaugeTab := mapSet st.gaugeTab k v }) db
    ({ s with db := some r.1 }, r.2.err)
  | none =>
    let s1 := { s with DataGauge := mapSet s.DataGauge k v }
    if s1.syncMode then ((writeToFile s1).1, none) else (s1, none)

/-- `AddCounter` (storage.go, lines 311-330): the relational upsert adds in
the exact `NUMERIC` arithmetic of the database; the local `+=` wraps in
`int64` (a missing key reads as the zero value). -/
def AddCounter (cd : Bool) (faults : Faults) (s : MemStorage) (k : String)
    (v : Int) : MemStorage × Option GoErr :=
  match s.db with
  | some db =>
    let r := execRetry cd faults
      (fun st =>
        { st with counterTab := mapSet st.counterTab k ((mapGet st.counterTab k).getD 0 + v) })
      db
    ({ s with db := some r.1 }, r.2.err)
  | none =>
    let s1 := { s with
      DataCounter := mapSet s.DataCounter k
        (int64Wrap ((mapGet s.DataCounter k).getD 0 + v)) }
    if s1.syncMode then ((writeToFile s1).1, none) else (s1, none)

/-- The retried query of `GetGauge`'s relational path: the scanned variable
`v` (zero-initialised named return) is the threaded state; a fault leaves
it untouched, an absent row scans to `sql.ErrNoRows` (terminal), a present
row scans successfully. -/
def getGaugeCore (cd : Bool) (faults : Faults) (db : DBState) (k : String) :
    Int × DoResult :=
  retryDoSt cd
    (fun n v =>
      match faults n with
      | some e => (v, some (retryIfPgConnException e))
      | none =>
        match mapGet db.gaugeTab k with
        | none => (v, some GoErr.sqlNoRows)
        | some x => (x, none))
    0

/-- The retried query of `GetCounter`'s relational path; scanning the
`NUMERIC` column back into the `int64`-based `Counter` fails outside the
`int64` range. -/
def getCounterCore (cd : Bool) (faults : Faults) (db : DBState) (k : String) :
    Int × DoResult :=
  retryDoSt cd
    (fun n v =>
      match faults n with
      | some e => (v, some (retryIfPgConnException e))
      | none =>
        match mapGet db.counterTab k with
        | none => (v, some GoErr.sqlNoRows)
        | some x => if inInt64 x then (x, none) else (v, some (GoErr.base "numeric out of int64 range")))
    0

/-- `GetGauge` (storage.go, lines 371-390): any error of the retried query
(including `sql.ErrNoRows`) yields `(v, false)`; the local path is a map
read under the mutex, with the zero value on a miss. -/
def GetGauge (cd : Bool) (faults : Faults) (s : MemStorage) (k : String) :
    Int × Bool :=
  match s.db with
  | some db =>
    let r := getGaugeCore cd faults db k
    match r.2.err with
    | some _ => (r.1, false)
    | none => (r.1, true)
  | none =>
    match mapGet s.DataGauge k with
    | some v => (v, true)
    | none => (0, false)

/-- `GetCounter` (storage.go, lines 392-411), mirror of `GetGauge`. -/
def GetCounter (cd : Bool) (faults : Faults) (s : MemStorage) (k : String) :
    Int × Bool :=
  match s.db with
  | some db =>
    let r := getCounterCore cd faults db k
    match r.2.err with
    | some _ => (r.1, false)
    | none => (r.1, true)
  | none =>
    match mapGet s.DataCounter k with
    | some v => (v, true)
    | none => (0, false)

/-- `StringGauge` (storage.go, lines 413-432).  The relational path queries
`s.stmtStringCounter` — the counter-table aggregate — although
`stmtStringGauge` was prepared for it (nothing else uses `stmtStringGauge`);
`json_agg` over an empty table yields SQL `NULL`, which fails to scan into
a string.  The local path marshals the gauge map under the mutex. -/
def StringGauge (cd : Bool) (faults : Faults) (s : MemStorage) :
    String × Option GoErr :=
  match s.db with
  | some db =>
    let r := retryDoSt cd
      (fun n enc =>
        match faults n with
        | some e => (enc, some (retryIfPgConnException e))
        | none =>
          if db.counterTab.isEmpty then
            (enc, some (GoErr.base "converting NULL to string is unsupported"))
          else (jsonAggRows db.counterTab, none))
      ""
    (r.1, r.2.err)
  | none => (encodeMapJson s.DataGauge, none)

/-- `StringCounter` (storage.go, lines 434-452): the counter-table
aggregate, or the marshalled local counter map. -/
def StringCounter (cd : Bool) (faults : Faults) (s : MemStorage) :
    String × Option GoErr :=
  match s.db with
  | some db =>
    let r := retryDoSt cd
      (fun n enc =>
        match faults n with
        | some e => (enc, some (retryIfPgConnException e))
        | none =>
          if db.counterTab.isEmpty then
            (enc, some (GoErr.base "converting NULL to string is unsupported"))
          else (jsonAggRows db.counterTab, none))
      ""
    (r.1, r.2.err)
  | none => (encodeMapJson s.DataCounter, none)

/-- Result of an operation that can terminate the goroutine: either the Go
return value, or a runtime panic. -/
inductive Outcome (α : Type)
  | ok (a : α)
  | panicked (msg : String)
deriving DecidableEq

/-- `PingContext` (storage.go, lines 566-573): unlike every other method
there is no `s.db != nil` guard, so on the local backend the very first
attempt dereferences the nil `*sqlx.DB` (a done context is observed before
the first attempt and returns `ctx.Err()` instead). -/
def PingContext (cd : Bool) (faults : Faults) (s : MemStorage) :
    Outcome (Option GoErr) :=
  match s.db with
  | some _ =>
    Outcome.ok (retryDo cd fun n => (faults n).map retryIfPgConnException).err
  | none =>
    if cd then Outcome.ok (some GoErr.ctxCanceled)
    else Outcome.panicked "runtime error: invalid memory address or nil pointer dereference"

/-- `Close`'s relational half: six of the eight prepared statements are
closed (`stmtAllGauge` and `stmtAllCounter` are not), then the connection;
`database/sql` makes closing an already-closed statement or connection a
nil-error no-op. -/
def closeDB (db : DBState) : DBState :=
  { db with
    stmtSetGaugeClosed := true
    stmtAddCounterClosed := true
    stmtGetGaugeClosed := true
    stmtGetCounterClosed := true
    stmtStringGaugeClosed := true
    stmtStringCounterClosed := true
    dbClosed := true }

/-- `Close` (storage.go, lines 575-592): relational closes statements and
connection; local performs a final flush (result discarded) then closes the
file handle when there is one (`os.ErrClosed` if it was already closed). -/
def Close (s : MemStorage) : MemStorage × Option GoErr :=
  match s.db with
  | some db => ({ s with db := some (closeDB db) }, none)
  | none =>
    let s1 := (writeToFile s).1
    match s1.file with
    | none => (s1, none)
    | some f =>
      if f.closed then (s1, some (GoErr.base "file already closed"))
      else ({ s1 with file := some { f with closed := true } }, none)

/-- `NewDBStorage` (storage.go, lines 63-178): one `retry.Do` whose closure
opens the connection, creates the two tables and prepares the eight
statements — every failing sub-step returns `retry.RetriableError(err)`, so
the oracle's per-attempt error is always wrapped retriable.  On success the
storage holds the connected database (`dbEnv`, whose pre-existing rows
survive `CREATE TABLE IF NOT EXISTS`); its maps stay at their zero value. -/
def NewDBStorage (cd : Bool) (dbFaults : Faults) (dbEnv : DBState) :
    Option MemStorage × Option GoErr :=
  let r := retryDo cd fun n => (dbFaults n).map GoErr.retriableTag
  match r.err with
  | some e => (none, some e)
  | none =>
    (some { db := some dbEnv, DataGauge := [], DataCounter := [], file := none,
            syncMode := false }, none)

/-- `NewMemStorage` (storage.go, lines 180-221).  `fileFaults` is the
oracle for the retried `os.OpenFile`; when the retries are exhausted the
function returns the file-less storage with a nil error.  `decoded` stands
for the result of `json.Decoder.Decode` on the file's existing contents
(`none` = decode failed; the failure is ignored and the maps stay empty).
The background flush goroutine spawned when `storeInterval != 0` performs
no step in this model. -/
def NewMemStorage (cd : Bool) (fileFaults : Faults) (fileStoragePath : String)
    (fileContents : String)
    (decoded : Option (List (String × Int) × List (String × Int)))
    (storeInterval : Int) (restore : Bool) : MemStorage × Option GoErr :=
  let storage : MemStorage :=
    { db := none, DataGauge := [], DataCounter := [], file := none, syncMode := false }
  if fileStoragePath = "" then (storage, none)
  else
    let r := retryDo cd fun n => (fileFaults n).map GoErr.retriableTag
    match r.err with
    | some _ => (storage, none)
    | none =>
      let maps :=
        if restore then
          match decoded with
          | some gc => gc
          | none => ([], [])
        else ([], [])
      ({ db := none, DataGauge := maps.1, DataCounter := maps.2,
         file := some { contents := fileContents, closed := false },
         syncMode := decide (storeInterval = 0) }, none)

/-- `New` (storage.go, lines 47-61): with a connection string, try the
relational backend and return it if construction succeeded; otherwise (or
without a connection string) fall through to the local backend. -/
def New (cd : Bool) (dsn : String) (dbFaults : Faults) (dbEnv : DBState)
    (fileStoragePath : String) (fileFaults : Faults) (fileContents : String)
    (decoded : Option (List (String × Int) × List (String × Int)))
    (storeInterval : Int) (restore : Bool) : Option MemStorage × Option GoErr :=
  let mem := NewMemStorage cd fileFaults fileStoragePath fileContents decoded
    storeInterval restore
  if dsn = "" then (some mem.1, mem.2)
  else
    match NewDBStorage cd dbFaults dbEnv with
    | (st, none) => (st, none)
    | (_, some _) => (some mem.1, mem.2)

/-- `writeToFile` touches only the file: backend selection, both maps and
the flush mode are untouched. -/
theorem writeToFile_preserves (s : MemStorage) :
    (writeToFile s).1.db = s.db ∧ (writeToFile s).1.DataGauge = s.DataGauge ∧
      (writeToFile s).1.DataCounter = s.DataCounter ∧
      (writeToFile s).1.syncMode = s.syncMode := by
  rcases hfile : s.file with _ | f
  · simp [writeToFile_eq, hfile]
  · by_cases hc : f.closed = true
    · simp [writeToFile_eq, hfile, hc]
    · simp only [Bool.not_eq_true] at hc
      simp [writeToFile_eq, hfile, hc]

/-- Components of a local-backend `SetGauge`: the gauge map receives the
write, everything else (backend, counter map, flush mode) is preserved —
also through the synchronous flush. -/
theorem SetGauge_local (cd : Bool) (faults : Faults) (s : MemStorage)
    (k : String) (v : Int) (hdb : s.db = none) :
    (SetGauge cd faults s k v).1.db = none ∧
      (SetGauge cd faults s k v).1.DataGauge = mapSet s.DataGauge k v ∧
      (SetGauge cd faults s k v).1.DataCounter = s.DataCounter ∧
      (SetGauge cd faults s k v).1.syncMode = s.syncMode := by
  have h := writeToFile_preserves { s with DataGauge := mapSet s.DataGauge k v }
  by_cases hsync : s.syncMode = true
  · simpa [SetGauge, hdb, hsync, hdb ▸ h.1] using h
  · simp only [Bool.not_eq_true] at hsync
    simp [SetGauge, hdb, hsync]

/-- Components of a local-backend `AddCounter`. -/
theorem AddCounter_local (cd : Bool) (faults : Faults) (s : MemStorage)
    (k : String) (v : Int) (hdb : s.db = none) :
    (AddCounter cd faults s k v).1.db = none ∧
      (AddCounter cd faults s k v).1.DataGauge = s.DataGauge ∧
      (AddCounter cd faults s k v).1.DataCounter =
        mapSet s.DataCounter k (int64Wrap ((mapGet s.DataCounter k).getD 0 + v)) ∧
      (AddCounter cd faults s k v).1.syncMode = s.syncMode := by
  have h := writeToFile_preserves
    { s with DataCounter := mapSet s.DataCounter k (int64Wrap ((mapGet s.DataCounter k).getD 0 + v)) }
  by_cases hsync : s.syncMode = true
  · simpa [AddCounter, hdb, hsync] using h
  · simp only [Bool.not_eq_true] at hsync
    simp [AddCounter, hdb, hsync]

/-- A fault-free relational `SetGauge` upserts on the first attempt. -/
theorem SetGauge_db_noFault (s : MemStorage) (k : String) (v : Int)
    (db : DBState) (hdb : s.db = some db) :
    SetGauge false noFault s k v =
      ({ s with db := some ({ db with gaugeTab := mapSet db.gaugeTab k v }) }, none) := by
  simp [SetGauge, hdb, execRetry, retryDoSt, doAux, noFault]

/-- A fault-free relational `AddCounter` upserts on the first attempt. -/
theorem AddCounter_db_noFault (s : MemStorage) (k : String) (v : Int)
    (db : DBState) (hdb : s.db = some db) :
    AddCounter false noFault s k v =
      ({ s with db := some ({ db with counterTab := mapSet db.counterTab k ((mapGet db.counterTab k).getD 0 + v) }) }, none) := by
  simp [AddCounter, hdb, execRetry, retryDoSt, doAux, noFault]

/-- A fault-free relational `GetGauge` on a present id scans it on the
first attempt. -/
theorem GetGauge_db_found (s : MemStorage) (k : String) (db : DBState)
    (v : Int) (hdb : s.db = some db) (hk : mapGet db.gaugeTab k = some v) :
    GetGauge false noFault s k = (v, true) := by
  simp [GetGauge, hdb, getGaugeCore, retryDoSt, doAux, noFault, hk]

/-- A fault-free relational `GetCounter` on a present in-range id scans it
on the first attempt. -/
theorem GetCounter_db_found (s : MemStorage) (k : String) (db : DBState)
    (v : Int) (hdb : s.db = some db) (hk : mapGet db.counterTab k = some v)
    (hv : inInt64 v = true) :
    GetCounter false noFault s k = (v, true) := by
  simp [GetCounter, hdb, getCounterCore, retryDoSt, doAux, noFault, hk, hv]

/-- C6: on either backend, `setGauge(id, v1)` then `setGauge(id, v2)`
followed by `getGauge(id)` returns `(v2, found = true)` — last write wins.
The quantification over `s : MemStorage` covers the relational backend
(`s.db = some _`, the upsert statement) and the local backend
(`s.db = none`, the mutex-guarded map, in either flush mode); the run is
fault-free and not cancelled. -/
theorem C6_setGauge_last_write_wins (s : MemStorage) (k : String) (v1 v2 : Int) :
    GetGauge false noFault
      (SetGauge false noFault (SetGauge false noFault s k v1).1 k v2).1 k =
      (v2, true) := by
  rcases hdb : s.db with _ | db
  · have h1 := SetGauge_local false noFault s k v1 hdb
    have h2 := SetGauge_local false noFault _ k v2 h1.1
    simp [GetGauge, h2.1, h2.2.1, h1.2.1, mapGet_mapSet_self]
  · rw [SetGauge_db_noFault s k v1 db hdb]
    rw [SetGauge_db_noFault _ k v2 _ rfl]
    exact GetGauge_db_found _ k _ v2 rfl (by rw [mapGet_mapSet_self])

/-- The id has no counter row / map entry yet, on whichever backend the
store uses. -/
def counterUnset (s : MemStorage) (k : String) : Prop :=
  match s.db with
  | some db => mapGet db.counterTab k = none
  | none => mapGet s.DataCounter k = none

/-- The purely in-memory local store (`New` with no connection string and
no file path, or the fallback of an unopenable file). -/
def emptyLocalStore : MemStorage :=
  { db := none, DataGauge := [], DataCounter := [], file := none, syncMode := false }

/-- A freshly constructed relational store over an empty database. -/
def dbEmptyStore : MemStorage :=
  { db := some { gaugeTab := [], counterTab := [] },
    DataGauge := [], DataCounter := [], file := none, syncMode := false }

/-- A fault-free relational `GetCounter` on an id whose exact `NUMERIC`
value no longer fits an `int64` fails the scan and reports a miss. -/
theorem GetCounter_db_outOfRange (s : MemStorage) (k : String) (db : DBState)
    (v : Int) (hdb : s.db = some db) (hk : mapGet db.counterTab k = some v)
    (hv : inInt64 v = false) :
    GetCounter false noFault s k = (0, false) := by
  simp [GetCounter, hdb, getCounterCore, retryDoSt, doAux, noFault, hk, hv,
    asRetriableError]

/-- C7 counterexample: at the in-range `int64` deltas d1 = d2 = 2^62 on a
previously-unset id, the program violates the claimed `(d1 + d2, true)` on
both backends — the local `+=` wraps the sum 2^63 to -2^63, while the
relational `NUMERIC` column keeps the exact 2^63, which then fails the
`int64` scan so `getCounter` reports a miss `(0, false)`. -/
theorem C7_overflow_counterexample :
    counterUnset emptyLocalStore "PollCount" ∧
      GetCounter false noFault
          (AddCounter false noFault
            (AddCounter false noFault emptyLocalStore "PollCount" 4611686018427387904).1
            "PollCount" 4611686018427387904).1 "PollCount" =
        (-9223372036854775808, true) ∧
      ((-9223372036854775808 : Int), true) ≠
        ((4611686018427387904 + 4611686018427387904 : Int), true) ∧
      counterUnset dbEmptyStore "PollCount" ∧
      GetCounter false noFault
          (AddCounter false noFault
            (AddCounter false noFault dbEmptyStore "PollCount" 4611686018427387904).1
            "PollCount" 4611686018427387904).1 "PollCount" =
        (0, false) ∧
      ((0 : Int), false) ≠
        ((4611686018427387904 + 4611686018427387904 : Int), true) := by
  refine ⟨rfl, ?_, by decide, rfl, ?_, by decide⟩
  · have h1 := AddCounter_local false noFault emptyLocalStore "PollCount"
      4611686018427387904 rfl
    have h2 := AddCounter_local false noFault _ "PollCount" 4611686018427387904 h1.1
    have e1 : int64Wrap ((mapGet emptyLocalStore.DataCounter "PollCount").getD 0 +
        4611686018427387904) = 4611686018427387904 := by decide
    have hA : (AddCounter false noFault emptyLocalStore "PollCount"
          4611686018427387904).1.DataCounter =
        mapSet emptyLocalStore.DataCounter "PollCount" 4611686018427387904 := by
      rw [h1.2.2.1, e1]
    have hg : mapGet (AddCounter false noFault emptyLocalStore "PollCount"
          4611686018427387904).1.DataCounter "PollCount" =
        some 4611686018427387904 := by
      rw [hA, mapGet_mapSet_self]
    have e2 : int64Wrap ((some (4611686018427387904 : Int)).getD 0 +
        4611686018427387904) = -9223372036854775808 := by decide
    have hB : (AddCounter false noFault
          (AddCounter false noFault emptyLocalStore "PollCount" 4611686018427387904).1
          "PollCount" 4611686018427387904).1.DataCounter =
        mapSet (AddCounter false noFault emptyLocalStore "PollCount"
          4611686018427387904).1.DataCounter "PollCount" (-9223372036854775808) := by
      rw [h2.2.2.1, hg, e2]
    simp [GetCounter, h2.1, hB, mapGet_mapSet_self]
  · rw [AddCounter_db_noFault dbEmptyStore "PollCount" 4611686018427387904
      { gaugeTab := [], counterTab := [] } rfl]
    rw [AddCounter_db_noFault _ "PollCount" 4611686018427387904 _ rfl]
    apply GetCounter_db_outOfRange _ "PollCount" _ 9223372036854775808 rfl
    · simp only [mapGet_mapSet_self, Option.getD_some]
      decide
    · decide

/-- C7 (amended): on either backend, `addCounter(id, d1)` then
`addCounter(id, d2)` on a store where the id is unset, followed by
`getCounter(id)`, returns `(d1 + d2, found = true)` — provided the `int64`
deltas' sum itself stays in `int64` range.  At overflow the claim fails
(see the counterexample): the local `+=` wraps, and the relational exact
`NUMERIC` sum no longer scans back into an `int64`. -/
theorem C7_addCounter_accumulates (s : MemStorage) (k : String) (d1 d2 : Int)
    (hunset : counterUnset s k)
    (h1l : -(2 ^ 63) ≤ d1) (h1u : d1 < 2 ^ 63)
    (h2l : -(2 ^ 63) ≤ d2) (h2u : d2 < 2 ^ 63)
    (hsl : -(2 ^ 63) ≤ d1 + d2) (hsu : d1 + d2 < 2 ^ 63) :
    GetCounter false noFault
      (AddCounter false noFault (AddCounter false noFault s k d1).1 k d2).1 k =
      (d1 + d2, true) := by
  rcases hdb : s.db with _ | db
  · have hun : mapGet s.DataCounter k = none := by
      simp only [counterUnset, hdb] at hunset; exact hunset
    have h1 := AddCounter_local false noFault s k d1 hdb
    have h2 := AddCounter_local false noFault _ k d2 h1.1
    have w1 : int64Wrap ((mapGet s.DataCounter k).getD 0 + d1) = d1 := by
      rw [hun]
      simpa using int64Wrap_eq_of_bounds d1 h1l h1u
    have hA : (AddCounter false noFault s k d1).1.DataCounter = mapSet s.DataCounter k d1 := by
      rw [h1.2.2.1, w1]
    have w2 : int64Wrap ((mapGet (AddCounter false noFault s k d1).1.DataCounter k).getD 0 + d2) =
        d1 + d2 := by
      rw [hA, mapGet_mapSet_self]
      simpa using int64Wrap_eq_of_bounds (d1 + d2) hsl hsu
    have hB : (AddCounter false noFault (AddCounter false noFault s k d1).1 k d2).1.DataCounter =
        mapSet (AddCounter false noFault s k d1).1.DataCounter k (d1 + d2) := by
      rw [h2.2.2.1, w2]
    simp [GetCounter, h2.1, hB, mapGet_mapSet_self]
  · have hun : mapGet db.counterTab k = none := by
      simp only [counterUnset, hdb] at hunset; exact hunset
    rw [AddCounter_db_noFault s k d1 db hdb]
    rw [AddCounter_db_noFault _ k d2 _ rfl]
    apply GetCounter_db_found _ k _ (d1 + d2) rfl
    · rw [hun]
      simp [mapGet_mapSet_self]
    · unfold inInt64
      rw [decide_eq_true hsl, decide_eq_true hsu]
      rfl

/-- Witness for C7: two adds on a fresh local store. -/
theorem C7_addCounter_accumulates_witness :
    counterUnset emptyLocalStore "Mississippi" ∧
      GetCounter false noFault
        (AddCounter false noFault
          (AddCounter false noFault emptyLocalStore "Mississippi" 3).1
          "Mississippi" 2).1 "Mississippi" = (3 + 2, true) :=
  ⟨rfl,
    C7_addCounter_accumulates emptyLocalStore "Mississippi" 3 2 rfl
      (by norm_num) (by norm_num) (by norm_num) (by norm_num) (by norm_num)
      (by norm_num)⟩

/-- C5: `close()` is idempotent on every store, relational or local: the
second call performs no state change beyond the first (`Close`, a total
function of the store state, returns the same state again; on the local
backend its flush and `file.Close` merely fail with `os.ErrClosed`, and on
the relational backend re-closing statements and connection is a
`database/sql` no-op).  No reachable store makes either call panic: the
relational branch only touches the statements that exist whenever that
backend was constructed, and the local branch guards both nil-file
accesses. -/
theorem C5_close_idempotent (s : MemStorage) : (Close (Close s).1).1 = (Close s).1 := by
  rcases hdb : s.db with _ | db
  · rcases hfile : s.file with _ | f
    · simp [Close, hdb, writeToFile_eq, hfile]
    · by_cases hc : f.closed = true
      · simp [Close, hdb, writeToFile_eq, hfile, hc]
      · simp only [Bool.not_eq_true] at hc
        simp [Close, hdb, writeToFile_eq, hfile, hc]
  · have hidem : closeDB (closeDB db) = closeDB db := by cases db; rfl
    simp [Close, hdb, hidem]

/-- When a relational `GetGauge` query run ends in an error, the scanned
variable still holds its zero value. -/
theorem getGaugeCore_val_of_err (cd : Bool) (faults : Faults) (db : DBState)
    (k : String) (h : (getGaugeCore cd faults db k).2.err ≠ none) :
    (getGaugeCore cd faults db k).1 = 0 := by
  unfold getGaugeCore retryDoSt at h ⊢
  refine doAux_state_of_err cd _ ?_ [1, 3, 5] 0 none 0 h
  intro n v hnv
  rcases hfx : faults n with _ | e
  · rcases hm : mapGet db.gaugeTab k with _ | x
    · simp [hfx, hm]
    · simp [hfx, hm] at hnv
  · simp [hfx]

/-- When a relational `GetCounter` query run ends in an error, the scanned
variable still holds its zero value. -/
theorem getCounterCore_val_of_err (cd : Bool) (faults : Faults) (db : DBState)
    (k : String) (h : (getCounterCore cd faults db k).2.err ≠ none) :
    (getCounterCore cd faults db k).1 = 0 := by
  unfold getCounterCore retryDoSt at h ⊢
  refine doAux_state_of_err cd _ ?_ [1, 3, 5] 0 none 0 h
  intro n v hnv
  rcases hfx : faults n with _ | e
  · rcases hm : mapGet db.counterTab k with _ | x
    · simp [hfx, hm]
    · by_cases hr : inInt64 x = true
      · simp [hfx, hm, hr] at hnv
      · simp only [Bool.not_eq_true] at hr
        simp [hfx, hm, hr]
  · simp [hfx]

/-- C10: on the relational backend, whenever the retried `getGauge` /
`getCounter` query ends in an error — retries exhausted or a terminal
failure — the caller receives the zero value with `found = false`, exactly
the result of a fault-free lookup of an absent id; no storage error is
surfaced. -/
theorem C10_get_errors_hidden (cd : Bool) (gFaults cFaults : Faults)
    (s : MemStorage) (db : DBState) (k : String) (hdb : s.db = some db)
    (hg : (getGaugeCore cd gFaults db k).2.err ≠ none)
    (hc : (getCounterCore cd cFaults db k).2.err ≠ none) :
    GetGauge cd gFaults s k = (0, false) ∧ GetCounter cd cFaults s k = (0, false) := by
  constructor
  · simp only [GetGauge, hdb]
    rcases herr : (getGaugeCore cd gFaults db k).2.err with _ | e
    · exact absurd herr hg
    · simp [herr, getGaugeCore_val_of_err cd gFaults db k hg]
  · simp only [GetCounter, hdb]
    rcases herr : (getCounterCore cd cFaults db k).2.err with _ | e
    · exact absurd herr hc
    · simp [herr, getCounterCore_val_of_err cd cFaults db k hc]

/-- Witness for C10: a database whose every call fails with the Postgres
connection-exception 08006, on a store whose tables do hold the queried
id — the caller still sees a plain miss. -/
theorem C10_get_errors_hidden_witness :
    (getGaugeCore false (fun _ => some (GoErr.pg "08006" "connection failure"))
        { gaugeTab := [("Apple", 3)], counterTab := [("Apple", 7)] } "Apple").2.err ≠ none ∧
      (getCounterCore false (fun _ => some (GoErr.pg "08006" "connection failure"))
        { gaugeTab := [("Apple", 3)], counterTab := [("Apple", 7)] } "Apple").2.err ≠ none ∧
      GetGauge false (fun _ => some (GoErr.pg "08006" "connection failure"))
        { db := some { gaugeTab := [("Apple", 3)], counterTab := [("Apple", 7)] },
          DataGauge := [], DataCounter := [], file := none, syncMode := false } "Apple" =
        (0, false) ∧
      GetCounter false (fun _ => some (GoErr.pg "08006" "connection failure"))
        { db := some { gaugeTab := [("Apple", 3)], counterTab := [("Apple", 7)] },
          DataGauge := [], DataCounter := [], file := none, syncMode := false } "Apple" =
        (0, false) :=
  ⟨by decide, by decide,
    C10_get_errors_hidden false _ _ _ _ "Apple" rfl (by decide) (by decide)⟩

/-- C4: the claim states that `healthCheck` (`PingContext`) on a local
store always returns a nil error and never panics.  Evaluating the
embedded `PingContext` on local stores — with and without a backing
file — under a live context: the missing `s.db != nil` guard (present in
every other method) makes the first retry attempt dereference the nil
`*sqlx.DB`, a runtime panic, never a nil return. -/
theorem C4_ping_local_panics_eval :
    PingContext false noFault emptyLocalStore =
        Outcome.panicked "runtime error: invalid memory address or nil pointer dereference" ∧
      PingContext false noFault
          { emptyLocalStore with file := some { contents := "", closed := false } } =
        Outcome.panicked "runtime error: invalid memory address or nil pointer dereference" :=
  ⟨rfl, rfl⟩

/-- A relational store whose gauge table holds Apple=3 and whose counter
table holds PollCount=42. -/
def dbStoreC2 : MemStorage :=
  { db := some { gaugeTab := [("Apple", 3)], counterTab := [("PollCount", 42)] },
    DataGauge := [], DataCounter := [], file := none, syncMode := false }

/-- C2: the claim states that `dumpGauges` (`StringGauge`) returns, on both
backends, a string that decodes to exactly the id-to-value mapping of the
last-written gauges.  Evaluating the embedded `StringGauge` on a
relational store: it runs the counter-table aggregate (`stmtStringCounter`;
the prepared `stmtStringGauge` is never queried), returning the counter
rows as a JSON array — not the gauge mapping.  The local path does return
the marshalled gauge map. -/
theorem C2_stringGauge_queries_counter_eval :
    (StringGauge false noFault dbStoreC2).1 =
        "[\x7b\"name\":\"PollCount\",\"value\":42\x7d]" ∧
      (StringGauge false noFault dbStoreC2).2 = none ∧
      (StringGauge false noFault dbStoreC2).1 ≠ encodeMapJson [("Apple", 3)] ∧
      (StringGauge false noFault { emptyLocalStore with DataGauge := [("Apple", 3)] }).1 =
        encodeMapJson [("Apple", 3)] := by
  refine ⟨rfl, rfl, ?_, rfl⟩
  decide

/-- Every external call of the relational construction fails (for example,
no server listens at the address). -/
def allFailConn : Faults := fun _ => some (GoErr.base "connection refused")

/-- C3: the claim states that when the relational backend cannot be
constructed and the local fallback file cannot be opened either, `New`
returns an error.  At such an input — both oracles failing every attempt —
`New` instead returns a nil error together with a purely in-memory store:
`NewMemStorage` answers an exhausted `os.OpenFile` retry with
`return &storage, nil`. -/
theorem C3_new_succeeds_counterexample :
    New false "postgres://localhost:5432/praktikum" allFailConn
        { gaugeTab := [], counterTab := [] } "/tmp/metrics-db.json" allFailConn
        "" none 300 false =
      (some emptyLocalStore, none) := by
  decide

/-- C3 (amended): if the relational backend cannot be constructed and the
local fallback file cannot be opened (retries exhausted), `New`
nevertheless succeeds, returning a purely in-memory local store — no file
backing, empty maps, synchronous-flush flag unset — with a nil error;
construction never fails on the local path. -/
theorem C3_new_fallback_inmemory (dsn : String) (dbFaults : Faults)
    (dbEnv : DBState) (path : String) (fileFaults : Faults) (contents : String)
    (decoded : Option (List (String × Int) × List (String × Int)))
    (interval : Int) (restore : Bool)
    (hdsn : dsn ≠ "")
    (hdb : ∀ n, dbFaults n ≠ none) (hfile : ∀ n, fileFaults n ≠ none) :
    New false dsn dbFaults dbEnv path fileFaults contents decoded interval restore =
      (some emptyLocalStore, none) := by
  obtain ⟨e0, he0⟩ := Option.ne_none_iff_exists'.mp (hdb 0)
  obtain ⟨g0, hg0⟩ := Option.ne_none_iff_exists'.mp (hfile 0)
  by_cases hpath : path = ""
  · simp [New, NewDBStorage, NewMemStorage, retryDo, retryDoSt, doAux, hdsn,
      hpath, he0, asRetriableError, emptyLocalStore]
  · simp [New, NewDBStorage, NewMemStorage, retryDo, retryDoSt, doAux, hdsn,
      hpath, he0, hg0, asRetriableError, emptyLocalStore]

/-- Witness for C3 (amended) at concrete always-failing oracles. -/
theorem C3_new_fallback_inmemory_witness :
    ("postgres://localhost:5432/praktikum" ≠ "") ∧ (∀ n, allFailConn n ≠ none) ∧
      New false "postgres://localhost:5432/praktikum" allFailConn
          { gaugeTab := [], counterTab := [] } "/tmp/metrics-db.json" allFailConn
          "" none 0 true =
        (some emptyLocalStore, none) :=
  ⟨by decide, fun n => by simp [allFailConn],
    C3_new_fallback_inmemory "postgres://localhost:5432/praktikum" allFailConn
      { gaugeTab := [], counterTab := [] } "/tmp/metrics-db.json" allFailConn
      "" none 0 true (by decide) (fun n => by simp [allFailConn])
      (fun n => by simp [allFailConn])⟩

/-- `monitor.Metrics` (the JSON metric record): id, kind, and the
kind-dependent payload (`Delta` for counters, `Value` for gauges; gauge
`float64` values again modelled by the abstract numeric type). -/
structure Metrics where
  ID : String
  MType : String
  Delta : Option Int := none
  Value : Option Int := none
deriving DecidableEq

/-- A batch as assembled by `prepare` and carried on the delivery channel
(`[]*monitor.Metrics`). -/
abbrev Batch : Type := List Metrics

/-- `telemetry.queueCap`: the capacity of the `toReport` channel created in
`Observer.Observe`. -/
def queueCap : Nat := 1024

/-- A send on the buffered channel (`toReport <- metrics`, prepare.go line
64): the batch is appended when a buffer slot is free; a full buffer blocks
the sender (`none` — no transition, nothing written, nothing dropped). -/
def chanSend (q : List Batch) (b : Batch) : Option (List Batch) :=
  if q.length < queueCap then some (q ++ [b]) else none

/-- A receive on the buffered channel (`<-metrics` in `Observer.report`):
the oldest batch, if any. -/
def chanRecv (q : List Batch) : Option (Batch × List Batch) :=
  match q with
  | [] => none
  | b :: rest => some (b, rest)

/-- The delivery pipeline's shared state: the channel buffer plus two ghost
histories — the batches the assembler has completed a send for, and the
batches some worker has received. -/
structure PipeState where
  queue : List Batch
  enqueued : List Batch
  delivered : List Batch
deriving DecidableEq

/-- One interleaving step of the pipeline: either the poll-loop assembler
completes `toReport <- metrics` (possible only when the channel has a free
slot — a full channel blocks it), or one of the `rateLimit` worker
goroutines in `Observer.report` receives a batch.  There is no transition
that discards a batch at the enqueue step. -/
inductive PipeStep : PipeState → PipeState → Prop
  | enqueue (s : PipeState) (b : Batch) (q' : List Batch)
      (h : chanSend s.queue b = some q') :
      PipeStep s { queue := q', enqueued := s.enqueued ++ [b], delivered := s.delivered }
  | dequeue (s : PipeState) (b : Batch) (q' : List Batch)
      (h : chanRecv s.queue = some (b, q')) :
      PipeStep s { queue := q', enqueued := s.enqueued, delivered := s.delivered ++ [b] }

/-- The pipeline starts with an empty channel and empty histories. -/
def pipeInit : PipeState := { queue := [], enqueued := [], delivered := [] }

/-- States the pipeline can reach from the start by interleaved assembler
and worker steps. -/
def PipeReachable (s : PipeState) : Prop := Relation.ReflTransGen PipeStep pipeInit s

/-- One pipeline step preserves the bounded-queue / no-loss invariant. -/
theorem pipeStep_inv (t u : PipeState) (step : PipeStep t u)
    (ih : t.queue.length ≤ queueCap ∧ t.delivered ++ t.queue = t.enqueued) :
    u.queue.length ≤ queueCap ∧ u.delivered ++ u.queue = u.enqueued := by
  cases step with
  | enqueue b q' hsend =>
    unfold chanSend at hsend
    by_cases hlen : t.queue.length < queueCap
    · rw [if_pos hlen] at hsend
      have hq : q' = t.queue ++ [b] := by
        injection hsend with h
        exact h.symm
      refine ⟨?_, ?_⟩
      · simp only [hq, List.length_append, List.length_singleton]
        omega
      · simp only [hq]
        rw [← List.append_assoc, ih.2]
    · rw [if_neg hlen] at hsend
      exact absurd hsend (by simp)
  | dequeue b q' hrecv =>
    rcases hq : t.queue with _ | ⟨b', rest⟩
    · rw [hq] at hrecv
      simp [chanRecv] at hrecv
    · rw [hq] at hrecv
      simp only [chanRecv, Option.some.injEq, Prod.mk.injEq] at hrecv
      obtain ⟨hb, hrest⟩ := hrecv
      subst hb
      subst hrest
      have ihq := ih.2
      rw [hq] at ihq
      have ihl := ih.1
      rw [hq] at ihl
      refine ⟨?_, ?_⟩
      · simp only [List.length_cons] at ihl ⊢
        omega
      · simpa [List.append_assoc] using ihq

/-- C9: in every reachable state of every interleaving of the assembler and
the worker pool, the delivery queue holds at most `queueCap = 1024`
batches, and every batch whose enqueue completed is still in the queue or
was handed to a worker (`delivered ++ queue = enqueued`): a full queue
blocks the assembler instead of dropping the batch, so no assembled batch
is ever discarded at the enqueue step. -/
theorem C9_queue_bounded_no_loss (s : PipeState) (h : PipeReachable s) :
    s.queue.length ≤ queueCap ∧ s.delivered ++ s.queue = s.enqueued := by
  induction h with
  | refl => simp [pipeInit]
  | tail _ step ih => exact pipeStep_inv _ _ step ih

/-- Witness for C9: the invariant instantiated at the initial state. -/
theorem C9_queue_bounded_no_loss_witness :
    PipeReachable pipeInit ∧
      (pipeInit.queue.length ≤ queueCap ∧
        pipeInit.delivered ++ pipeInit.queue = pipeInit.enqueued) :=
  ⟨Relation.ReflTransGen.refl,
    C9_queue_bounded_no_loss pipeInit Relation.ReflTransGen.refl⟩
